import Mathlib

/-!
Shallow embedding of the type-contract surface of `src/types/types.ts`
(alchemy-sdk type declarations), together with theorems settling the
spec's claims about those contracts.

Modelling conventions (uniform across the file):
* a TypeScript field of type `T | null` becomes `Option τ` (`none` = null);
* an optional field `f?: T` (i.e. `T | undefined`) also becomes `Option τ`
  (`none` = absent) — the claims never need to distinguish null from
  undefined on the same field, so one `Option` layer suffices;
* the TypeScript literal type `null` (a type with the single value `null`)
  becomes the one-value inductive `TSNull`;
* a boolean literal type `true` / `false` becomes the subtype
  `{b : Bool // b = true}` / `{b : Bool // b = false}`;
* a string enum becomes an inductive plus a `toWire` map giving the
  declared string values;
* a union of interfaces that the spec treats as a discriminated union
  becomes a Lean sum-like inductive, with `Option`-valued views reading
  each field across the variants the way a TypeScript caller would;
* TypeScript `number` becomes `Nat` where the field is documented as an
  integral count, and `Rat` for the one converted-asset-value field; no
  claim touches those fields.
-/

/-- TypeScript literal type `null`: a type with exactly one value. -/
inductive TSNull : Type where
  | null : TSNull
deriving DecidableEq

/-- Embeds `TokenBalanceSuccess` (types.ts 121-125): `contractAddress: string;
tokenBalance: string; error: null`. -/
structure TokenBalanceSuccess where
  contractAddress : String
  tokenBalance : String
  error : TSNull
deriving DecidableEq

/-- Embeds `TokenBalanceFailure` (types.ts 128-132): `contractAddress: string;
tokenBalance: null; error: string`. -/
structure TokenBalanceFailure where
  contractAddress : String
  tokenBalance : TSNull
  error : String
deriving DecidableEq

/-- Embeds `type TokenBalance = TokenBalanceSuccess | TokenBalanceFailure`
(types.ts 118). -/
inductive TokenBalance : Type where
  | success : TokenBalanceSuccess → TokenBalance
  | failure : TokenBalanceFailure → TokenBalance
deriving DecidableEq

/-- Nullable view of the `tokenBalance` field across the union: the value a
TypeScript caller reads from `tb.tokenBalance` (`none` = null). -/
def TokenBalance.tokenBalanceN : TokenBalance → Option String
  | .success s => some s.tokenBalance
  | .failure _ => none

/-- Nullable view of the `error` field across the union (`none` = null). -/
def TokenBalance.errorN : TokenBalance → Option String
  | .success _ => none
  | .failure f => some f.error

/-- Nullable view of the `contractAddress` field across the union. Both
variants declare it as a plain (non-null) `string`, so the view is built
with `some` in each arm. -/
def TokenBalance.contractAddressN : TokenBalance → Option String
  | .success s => some s.contractAddress
  | .failure f => some f.contractAddress

/-- Claim C1: for every value of the `TokenBalance` union, exactly one of
the fields `tokenBalance` and `error` is non-null: `tokenBalance` is null
if and only if `error` is non-null. -/
theorem tokenBalance_null_iff_error_nonnull (tb : TokenBalance) :
    tb.tokenBalanceN = none ↔ tb.errorN ≠ none := by
  cases tb <;> simp [TokenBalance.tokenBalanceN, TokenBalance.errorN]

/-- Claim C8: every `TokenBalance` value, success or failure, carries a
non-null string `contractAddress`; in particular each variant's view
returns exactly the string stored in that variant. -/
theorem tokenBalance_contractAddress_always_present :
    (∀ tb : TokenBalance, ∃ a : String, tb.contractAddressN = some a) ∧
    (∀ s : TokenBalanceSuccess,
      (TokenBalance.success s).contractAddressN = some s.contractAddress) ∧
    (∀ f : TokenBalanceFailure,
      (TokenBalance.failure f).contractAddressN = some f.contractAddress) := by
  refine ⟨?_, fun _ => rfl, fun _ => rfl⟩
  intro tb
  cases tb with
  | success s => exact ⟨s.contractAddress, rfl⟩
  | failure f => exact ⟨f.contractAddress, rfl⟩

/-- Embeds the string enum `AssetTransfersCategory` (types.ts 245-271). -/
inductive AssetTransfersCategory : Type where
  | EXTERNAL : AssetTransfersCategory
  | INTERNAL : AssetTransfersCategory
  | ERC20 : AssetTransfersCategory
  | ERC721 : AssetTransfersCategory
  | ERC1155 : AssetTransfersCategory
  | SPECIALNFT : AssetTransfersCategory
deriving DecidableEq

/-- Declared string value of each `AssetTransfersCategory` member. -/
def AssetTransfersCategory.toWire : AssetTransfersCategory → String
  | .EXTERNAL => "external"
  | .INTERNAL => "internal"
  | .ERC20 => "erc20"
  | .ERC721 => "erc721"
  | .ERC1155 => "erc1155"
  | .SPECIALNFT => "specialnft"

/-- Embeds the string enum `AssetTransfersOrder` (types.ts 279-282). -/
inductive AssetTransfersOrder : Type where
  | ASCENDING : AssetTransfersOrder
  | DESCENDING : AssetTransfersOrder
deriving DecidableEq

/-- Embeds `ERC1155Metadata` (types.ts 776-779). -/
structure ERC1155Metadata where
  tokenId : String
  value : String
deriving DecidableEq

/-- Embeds `RawContract` (types.ts 787-802); all three fields are
`string | null`. -/
structure RawContract where
  value : Option String
  address : Option String
  decimal : Option String
deriving DecidableEq

/-- Embeds `AssetTransfersParams` (types.ts 167-227). `category` is the one
required field; every other field is optional. TypeScript `number` for
`maxCount` is modelled as `Nat` (a result cap). -/
structure AssetTransfersParams where
  fromBlock : Option String
  toBlock : Option String
  order : Option AssetTransfersOrder
  fromAddress : Option String
  toAddress : Option String
  contractAddresses : Option (List String)
  excludeZeroValue : Option Bool
  category : List AssetTransfersCategory
  maxCount : Option Nat
  pageKey : Option String
  withMetadata : Option Bool

/-- Embeds `AssetTransfersWithMetadataParams extends AssetTransfersParams
{ withMetadata: true }` (types.ts 235-237): the base params with the
optional `withMetadata` field narrowed to the required literal `true`. -/
structure AssetTransfersWithMetadataParams extends AssetTransfersParams where
  withMetadata_req : withMetadata = some true

/-- Embeds `AssetTransfersResult` (types.ts 322-367). The TypeScript fields
`from` and `to` are reserved words in Lean, so they are written `from_` and
`to_` here; `value` (`number | null`, a converted decimal amount) is
modelled as `Option Rat`. -/
structure AssetTransfersResult where
  category : AssetTransfersCategory
  blockNum : String
  from_ : String
  to_ : Option String
  value : Option Rat
  erc721TokenId : Option String
  erc1155Metadata : Option (List ERC1155Metadata)
  tokenId : Option String
  asset : Option String
  hash : String
  rawContract : RawContract

/-- Embeds `AssetTransfersMetadata` (types.ts 386-389). -/
structure AssetTransfersMetadata where
  blockTimestamp : String
deriving DecidableEq

/-- Embeds `AssetTransfersWithMetadataResult extends AssetTransfersResult`
(types.ts 375-378): the base result plus a required (non-optional)
`metadata` field. -/
structure AssetTransfersWithMetadataResult extends AssetTransfersResult where
  metadata : AssetTransfersMetadata

/-- Forgets an `AssetTransfersWithMetadataParams` down to a base params
value paired with the proof that its `withMetadata` field is the literal
`true`. -/
def AssetTransfersWithMetadataParams.toSubtype
    (q : AssetTransfersWithMetadataParams) :
    {p : AssetTransfersParams // p.withMetadata = some true} :=
  ⟨q.toAssetTransfersParams, q.withMetadata_req⟩

/-- Rebuilds an `AssetTransfersWithMetadataParams` from a base params value
whose `withMetadata` field is the literal `true`. -/
def AssetTransfersWithMetadataParams.ofSubtype
    (p : {p : AssetTransfersParams // p.withMetadata = some true}) :
    AssetTransfersWithMetadataParams :=
  ⟨p.val, p.property⟩

/-- Splits an `AssetTransfersWithMetadataResult` into the base result and
its required `metadata` field. -/
def AssetTransfersWithMetadataResult.toPair
    (r : AssetTransfersWithMetadataResult) :
    AssetTransfersResult × AssetTransfersMetadata :=
  (r.toAssetTransfersResult, r.metadata)

/-- Rebuilds an `AssetTransfersWithMetadataResult` from a base result and a
metadata value. -/
def AssetTransfersWithMetadataResult.ofPair :
    AssetTransfersResult × AssetTransfersMetadata →
      AssetTransfersWithMetadataResult
  | (a, m) => ⟨a, m⟩

/-- Claim C5: `AssetTransfersWithMetadataParams` is exactly the base
`AssetTransfersParams` type plus the required literal `withMetadata: true`
(the two sides are in mutually inverse bijection), and
`AssetTransfersWithMetadataResult` is exactly the base result plus a
required, non-optional `metadata` field (again a bijection). -/
theorem assetTransfers_withMetadata_is_base_plus_literal :
    (∀ q : AssetTransfersWithMetadataParams,
      AssetTransfersWithMetadataParams.ofSubtype q.toSubtype = q) ∧
    (∀ p : {p : AssetTransfersParams // p.withMetadata = some true},
      (AssetTransfersWithMetadataParams.ofSubtype p).toSubtype = p) ∧
    (∀ r : AssetTransfersWithMetadataResult,
      AssetTransfersWithMetadataResult.ofPair r.toPair = r) ∧
    (∀ x : AssetTransfersResult × AssetTransfersMetadata,
      (AssetTransfersWithMetadataResult.ofPair x).toPair = x) :=
  ⟨fun _ => rfl, fun _ => rfl, fun _ => rfl, fun _ => rfl⟩

/-- Claim C4 exactly as stated: membership of `category` in the closed
six-value wire set, plus the claimed null-correlations of `erc721TokenId`
and `erc1155Metadata` with the category. -/
def assetTransfersResultClaimed (r : AssetTransfersResult) : Prop :=
  r.category.toWire ∈
      ["external", "internal", "erc20", "erc721", "erc1155", "specialnft"] ∧
  (r.erc721TokenId ≠ none ↔ r.category = AssetTransfersCategory.ERC721) ∧
  (r.category = AssetTransfersCategory.ERC721 → r.erc1155Metadata = none) ∧
  (r.erc1155Metadata ≠ none ↔ r.category = AssetTransfersCategory.ERC1155)

/-- Claim C4, counterexample: the declared `AssetTransfersResult` type
admits a value with category `external` yet a non-null `erc721TokenId`,
so the claimed iff-correlations are not invariants of the type. -/
theorem assetTransfersResult_claim_counterexample :
    ¬ assetTransfersResultClaimed
        ⟨AssetTransfersCategory.EXTERNAL, "0x1", "0xaaa", none, none,
          some "0x2a", none, none, none, "0xhash", ⟨none, none, none⟩⟩ := by
  intro h
  rcases h with ⟨-, h2, -, -⟩
  have hcat : AssetTransfersCategory.EXTERNAL = AssetTransfersCategory.ERC721 :=
    h2.mp (by simp)
  exact absurd hcat (by decide)

/-- Claim C4 as amended: for every `AssetTransfersResult` value, `category`
belongs to the closed six-value set; but the null-correlations of
`erc721TokenId` and `erc1155Metadata` with `category` are documented
service behaviour, not invariants of the declared type, which admits
values violating either correlation. -/
theorem assetTransfersResult_category_closed_correlations_unenforced :
    (∀ r : AssetTransfersResult,
      r.category.toWire ∈
        ["external", "internal", "erc20", "erc721", "erc1155", "specialnft"]) ∧
    (∃ r : AssetTransfersResult,
      r.category ≠ AssetTransfersCategory.ERC721 ∧ r.erc721TokenId ≠ none) ∧
    (∃ r : AssetTransfersResult,
      r.category ≠ AssetTransfersCategory.ERC1155 ∧
        r.erc1155Metadata ≠ none) := by
  refine ⟨?_, ?_, ?_⟩
  · intro r
    cases h : r.category <;> simp [AssetTransfersCategory.toWire]
  · exact ⟨⟨AssetTransfersCategory.EXTERNAL, "0x1", "0xaaa", none, none,
      some "0x2a", none, none, none, "0xhash", ⟨none, none, none⟩⟩,
      by decide, by simp⟩
  · exact ⟨⟨AssetTransfersCategory.ERC20, "0x1", "0xaaa", none, none,
      none, some [⟨"0x1", "0x2"⟩], none, none, "0xhash", ⟨none, none, none⟩⟩,
      by decide, by simp⟩

/-- Embeds the string enum `NftExcludeFilters` (types.ts 564-567). -/
inductive NftExcludeFilters : Type where
  | SPAM : NftExcludeFilters
deriving DecidableEq

/-- Embeds `GetNftsForOwnerOptions` (types.ts 481-513): the owner-scoped,
full-metadata options; `omitMetadata?: boolean` is optional. `pageSize` and
`tokenUriTimeoutInMs` (TypeScript `number`, integral counts) are `Nat`. -/
structure GetNftsForOwnerOptions where
  pageKey : Option String
  contractAddresses : Option (List String)
  excludeFilters : Option (List NftExcludeFilters)
  pageSize : Option Nat
  omitMetadata : Option Bool
  tokenUriTimeoutInMs : Option Nat

/-- Embeds `GetBaseNftsForOwnerOptions` (types.ts 524-556): the
owner-scoped, metadata-omitting options; `omitMetadata: true` is a required
field of the boolean literal type `true`. -/
structure GetBaseNftsForOwnerOptions where
  pageKey : Option String
  contractAddresses : Option (List String)
  excludeFilters : Option (List NftExcludeFilters)
  pageSize : Option Nat
  omitMetadata : {b : Bool // b = true}
  tokenUriTimeoutInMs : Option Nat

/-- Embeds `GetNftsForContractOptions` (types.ts 813-836): the
contract-scoped, full-metadata options; `omitMetadata?: boolean` is
optional. -/
structure GetNftsForContractOptions where
  pageKey : Option String
  omitMetadata : Option Bool
  pageSize : Option Nat
  tokenUriTimeoutInMs : Option Nat

/-- Embeds `GetBaseNftsForContractOptions` (types.ts 847-862): the
contract-scoped, metadata-omitting options as actually declared, with the
required field `omitMetadata` of the boolean literal type `false` (and no
`tokenUriTimeoutInMs` field). -/
structure GetBaseNftsForContractOptions where
  pageKey : Option String
  omitMetadata : {b : Bool // b = false}
  pageSize : Option Nat

/-- Claim C2 (code bug): in both full-metadata options types `omitMetadata`
is optional and can hold absent, true or false; the owner-scoped base
variant pins `omitMetadata` to the literal `true` as the claim states, but
the contract-scoped base variant `GetBaseNftsForContractOptions` pins it to
the literal `false`, so no value of that type can carry the
metadata-omitting value `true`. -/
theorem omitMetadata_literals_as_declared :
    (∀ b : Option Bool,
      ∃ o : GetNftsForOwnerOptions, o.omitMetadata = b) ∧
    (∀ b : Option Bool,
      ∃ o : GetNftsForContractOptions, o.omitMetadata = b) ∧
    (∀ o : GetBaseNftsForOwnerOptions, o.omitMetadata.val = true) ∧
    (∀ o : GetBaseNftsForContractOptions, o.omitMetadata.val = false) := by
  refine ⟨?_, ?_, ?_, ?_⟩
  · intro b; exact ⟨⟨none, none, none, none, b, none⟩, rfl⟩
  · intro b; exact ⟨⟨none, b, none, none⟩, rfl⟩
  · intro o; exact o.omitMetadata.property
  · intro o; exact o.omitMetadata.property

/-- Embeds the string enum `RefreshState` (types.ts 711-729). -/
inductive RefreshState : Type where
  | DOES_NOT_EXIST : RefreshState
  | ALREADY_QUEUED : RefreshState
  | IN_PROGRESS : RefreshState
  | FINISHED : RefreshState
  | QUEUED : RefreshState
  | QUEUE_FAILED : RefreshState
deriving DecidableEq

/-- Declared string value of each `RefreshState` member. -/
def RefreshState.toWire : RefreshState → String
  | .DOES_NOT_EXIST => "does_not_exist"
  | .ALREADY_QUEUED => "already_queued"
  | .IN_PROGRESS => "in_progress"
  | .FINISHED => "finished"
  | .QUEUED => "queued"
  | .QUEUE_FAILED => "queue_failed"

/-- Embeds `RefreshContractResult` (types.ts 696-708): `contractAddress:
string; refreshState: RefreshState; progress: string | null`. -/
structure RefreshContractResult where
  contractAddress : String
  refreshState : RefreshState
  progress : Option String
deriving DecidableEq

/-- Claim C6 exactly as stated: six-state membership, `progress` null in
the four non-active states, and a non-null decimal-digit string when the
state is `in_progress` or `finished`. -/
def refreshContractResultClaimed (r : RefreshContractResult) : Prop :=
  r.refreshState.toWire ∈
      ["does_not_exist", "already_queued", "in_progress", "finished",
        "queued", "queue_failed"] ∧
  ((r.refreshState = RefreshState.DOES_NOT_EXIST ∨
      r.refreshState = RefreshState.ALREADY_QUEUED ∨
      r.refreshState = RefreshState.QUEUED ∨
      r.refreshState = RefreshState.QUEUE_FAILED) → r.progress = none) ∧
  ((r.refreshState = RefreshState.IN_PROGRESS ∨
      r.refreshState = RefreshState.FINISHED) →
    ∃ s : String, r.progress = some s ∧ s ≠ "" ∧ s.all Char.isDigit = true)

/-- Claim C6, counterexample: the declared `RefreshContractResult` type
admits a value in state `finished` whose `progress` is null, so the claimed
state/progress correlation is not an invariant of the type. -/
theorem refreshContractResult_claim_counterexample :
    ¬ refreshContractResultClaimed ⟨"0xabc", RefreshState.FINISHED, none⟩ := by
  intro h
  rcases h with ⟨-, -, h3⟩
  rcases h3 (Or.inr rfl) with ⟨s, hs, -⟩
  exact Option.noConfusion hs

/-- Claim C6 as amended: for every `RefreshContractResult` value,
`refreshState` belongs to the closed six-state set; but the nullability and
digit-string format of `progress` relative to the state are documented
service behaviour, not invariants of the declared type, which admits a null
progress in state `finished` and a non-null progress in state `queued`. -/
theorem refreshState_closed_progress_unconstrained :
    (∀ r : RefreshContractResult,
      r.refreshState.toWire ∈
        ["does_not_exist", "already_queued", "in_progress", "finished",
          "queued", "queue_failed"]) ∧
    (∃ r : RefreshContractResult,
      (r.refreshState = RefreshState.IN_PROGRESS ∨
        r.refreshState = RefreshState.FINISHED) ∧ r.progress = none) ∧
    (∃ r : RefreshContractResult,
      r.refreshState = RefreshState.QUEUED ∧ r.progress ≠ none) := by
  refine ⟨?_, ?_, ?_⟩
  · intro r
    cases h : r.refreshState <;> simp [RefreshState.toWire]
  · exact ⟨⟨"0xabc", RefreshState.FINISHED, none⟩, Or.inr rfl, rfl⟩
  · exact ⟨⟨"0xabc", RefreshState.QUEUED, some "50"⟩, rfl, by simp⟩

/-- Embeds `TransactionReceiptsBlockNumber` (types.ts 736-739). -/
structure TransactionReceiptsBlockNumber where
  blockNumber : String
deriving DecidableEq

/-- Embeds `TransactionReceiptsBlockHash` (types.ts 746-749). -/
structure TransactionReceiptsBlockHash where
  blockHash : String
deriving DecidableEq

/-- Embeds `type TransactionReceiptsParams = TransactionReceiptsBlockNumber |
TransactionReceiptsBlockHash` (types.ts 756-758), the discriminated union
keyed by which block identifier is present. -/
inductive TransactionReceiptsParams : Type where
  | byBlockNumber : TransactionReceiptsBlockNumber → TransactionReceiptsParams
  | byBlockHash : TransactionReceiptsBlockHash → TransactionReceiptsParams
deriving DecidableEq

/-- View of the `blockNumber` field across the union (`none` = absent). -/
def TransactionReceiptsParams.blockNumberN :
    TransactionReceiptsParams → Option String
  | .byBlockNumber p => some p.blockNumber
  | .byBlockHash _ => none

/-- View of the `blockHash` field across the union (`none` = absent). -/
def TransactionReceiptsParams.blockHashN :
    TransactionReceiptsParams → Option String
  | .byBlockNumber _ => none
  | .byBlockHash p => some p.blockHash

/-- Claim C3: every `TransactionReceiptsParams` value supplies exactly one
of `blockNumber` and `blockHash`: the former is absent if and only if the
latter is present, so no value carries both and none carries neither. -/
theorem transactionReceiptsParams_exactly_one_identifier
    (p : TransactionReceiptsParams) :
    p.blockNumberN = none ↔ p.blockHashN ≠ none := by
  cases p <;>
    simp [TransactionReceiptsParams.blockNumberN,
      TransactionReceiptsParams.blockHashN]

/-- Minimal model of the `TransactionReceipt` type imported from
`@ethersproject/abstract-provider` (external collaborator, not declared in
this repository); only its identity matters to the claims, so it is
modelled by its transaction hash. -/
structure TransactionReceipt where
  transactionHash : String
deriving DecidableEq

/-- Embeds `TransactionReceiptsResponse` (types.ts 765-768): `receipts:
TransactionReceipt[] | null`. -/
structure TransactionReceiptsResponse where
  receipts : Option (List TransactionReceipt)
deriving DecidableEq

/-- Claim C7: `receipts` is typed list-or-null, every response is either a
null list or an actual (possibly empty) list, and the null response is a
value distinct from the empty-list response — the two are never collapsed. -/
theorem transactionReceiptsResponse_null_vs_empty_distinct :
    (∀ r : TransactionReceiptsResponse,
      r.receipts = none ∨ ∃ l, r.receipts = some l) ∧
    TransactionReceiptsResponse.mk none ≠
      TransactionReceiptsResponse.mk (some []) := by
  refine ⟨?_, by simp⟩
  intro r
  cases h : r.receipts with
  | none => exact Or.inl rfl
  | some l => exact Or.inr ⟨l, rfl⟩

/-- Model of a TypeScript `any` value (the codomain of the
`Record<string, any>` index signature on `NftMetadata`): a JSON-like value
tree. -/
inductive TsValue : Type where
  | str : String → TsValue
  | num : Int → TsValue
  | boolean : Bool → TsValue
  | nullV : TsValue
  | arr : List TsValue → TsValue
  | obj : List (String × TsValue) → TsValue

/-- Embeds `NftMetadata extends Record<string, any>` (types.ts 397-418):
six named optional fields plus the index signature admitting arbitrary
further string-keyed properties, modelled as the association list
`extra`. `attributes?: Array<Record<string, any>>` becomes an optional
list of association lists. -/
structure NftMetadata where
  name : Option String
  description : Option String
  image : Option String
  external_url : Option String
  background_color : Option String
  attributes : Option (List (List (String × TsValue)))
  extra : List (String × TsValue)

/-- Claim C10: for any choice of arbitrary string-keyed extra properties —
including none at all, i.e. the empty record — there is a valid
`NftMetadata` value carrying exactly those properties with every named
field (`name`, `description`, `image`, `external_url`, `background_color`,
`attributes`) absent; so no metadata field is guaranteed present. -/
theorem nftMetadata_all_fields_optional_open_record
    (kvs : List (String × TsValue)) :
    ∃ m : NftMetadata, m.name = none ∧ m.description = none ∧
      m.image = none ∧ m.external_url = none ∧ m.background_color = none ∧
      m.attributes = none ∧ m.extra = kvs :=
  ⟨⟨none, none, none, none, none, none, kvs⟩,
    rfl, rfl, rfl, rfl, rfl, rfl, rfl⟩

/-- Embeds `SendPrivateTransactionOptions` (types.ts 954-964): the single
field `fast: boolean` is required (its documentation mentions a default of
false, but the type gives it no default and no optionality). -/
structure SendPrivateTransactionOptions where
  fast : Bool
deriving DecidableEq

/-- Claim C9: every `SendPrivateTransactionOptions` value explicitly
supplies `fast`: the type has exactly the two values with `fast = true` and
`fast = false`, so no options value exists with `fast` omitted, and
constructing from a boolean stores exactly that boolean. -/
theorem sendPrivateTransactionOptions_fast_required :
    (∀ o : SendPrivateTransactionOptions,
      o = SendPrivateTransactionOptions.mk true ∨
        o = SendPrivateTransactionOptions.mk false) ∧
    (∀ b : Bool, (SendPrivateTransactionOptions.mk b).fast = b) := by
  refine ⟨?_, fun _ => rfl⟩
  intro o
  rcases o with ⟨b⟩
  cases b
  · exact Or.inr rfl
  · exact Or.inl rfl

/-- Witness for claim C1 at a concrete successful token balance. -/
theorem tokenBalance_null_iff_error_nonnull_witness :
    (TokenBalance.success ⟨"0xc02a", "0x5", TSNull.null⟩).tokenBalanceN = none ↔
      (TokenBalance.success ⟨"0xc02a", "0x5", TSNull.null⟩).errorN ≠ none :=
  tokenBalance_null_iff_error_nonnull
    (TokenBalance.success ⟨"0xc02a", "0x5", TSNull.null⟩)

/-- Witness for claim C3 at a concrete block-hash request. -/
theorem transactionReceiptsParams_exactly_one_identifier_witness :
    (TransactionReceiptsParams.byBlockHash ⟨"0xdead"⟩).blockNumberN = none ↔
      (TransactionReceiptsParams.byBlockHash ⟨"0xdead"⟩).blockHashN ≠ none :=
  transactionReceiptsParams_exactly_one_identifier
    (TransactionReceiptsParams.byBlockHash ⟨"0xdead"⟩)

/-- Witness for claim C10 at one concrete extra property list. -/
theorem nftMetadata_all_fields_optional_open_record_witness :
    ∃ m : NftMetadata, m.name = none ∧ m.description = none ∧
      m.image = none ∧ m.external_url = none ∧ m.background_color = none ∧
      m.attributes = none ∧ m.extra = [("tokenId", TsValue.num 7)] :=
  nftMetadata_all_fields_optional_open_record [("tokenId", TsValue.num 7)]
